import Mathlib

/-!
# Verification of the bike-rentals dashboard data pipeline

Shallow embedding of `src/app.py` (a Streamlit dashboard over the
Washington D.C. bike rental dataset).  A pandas DataFrame is embedded as a
`List` of row records; the successive boolean-mask filters of the script
become `List.filter`; pandas group-by aggregation becomes key extraction,
deduplication, sorting and per-group means; the seeded `DataFrame.sample`
call becomes a deterministic seeded selection-without-replacement.
Numeric columns are embedded as `Int`/`ℚ`; the floating-point Pearson
correlation is embedded over `ℝ`.
-/

/-- The structured value produced by `pd.to_datetime` for one row: the
script only ever reads the `.dt.year`, `.dt.month`, `.dt.dayofweek` and
`.dt.hour` accessors, so those components model the timestamp. -/
structure Timestamp where
  year : Int
  month : Int
  day : Int
  hour : Int
  dayofweek : Int
deriving DecidableEq, Repr

/-- One row of the raw CSV (`train.csv`) after `pd.read_csv` and timestamp
parsing, before the derived columns of `load_data` are added
(`src/app.py` lines 30–31, input schema of spec §6). -/
structure RawRow where
  datetime : Timestamp
  season : Int
  holiday : Int
  workingday : Int
  weather : Int
  temp : ℚ
  atemp : ℚ
  humidity : ℚ
  windspeed : ℚ
  casual : Int
  registered : Int
  count : Int
deriving DecidableEq, Repr

/-- Embeds `season_map = {1: "spring", 2: "summer", 3: "fall", 4: "winter"}`
(`src/app.py` line 37); `Series.map` yields a missing value (`none`) on
codes outside the dictionary. -/
def season_map (s : Int) : Option String :=
  if s = 1 then some "spring"
  else if s = 2 then some "summer"
  else if s = 3 then some "fall"
  else if s = 4 then some "winter"
  else none

/-- Embeds `dow_map = {0: "Mon", ..., 6: "Sun"}` (`src/app.py` line 40). -/
def dow_map (d : Int) : Option String :=
  if d = 0 then some "Mon"
  else if d = 1 then some "Tue"
  else if d = 2 then some "Wed"
  else if d = 3 then some "Thu"
  else if d = 4 then some "Fri"
  else if d = 5 then some "Sat"
  else if d = 6 then some "Sun"
  else none

/-- Embeds `get_day_period` (`src/app.py` lines 43–51): buckets an hour value into
night / morning / afternoon / evening via chained comparisons. -/
def get_day_period (h : Int) : String :=
  if 0 ≤ h ∧ h < 6 then "night"
  else if 6 ≤ h ∧ h < 12 then "morning"
  else if 12 ≤ h ∧ h < 18 then "afternoon"
  else "evening"

/-- A row of the annotated table returned by `load_data`: the raw columns
plus the derived columns of `src/app.py` lines 32–53. -/
structure Row0 extends RawRow where
  year : Int
  month : Int
  dayofweek : Int
  hour : Int
  season_name : Option String
  day_name : Option String
  day_period : String
deriving DecidableEq, Repr

/-- The per-row work of `load_data` (`src/app.py` lines 29–54): derive the
calendar columns from the parsed timestamp, map the season code and the
day-of-week code through their dictionaries, and bucket the hour. -/
def annotateRow (r : RawRow) : Row0 :=
  { r with
    year := r.datetime.year
    month := r.datetime.month
    dayofweek := r.datetime.dayofweek
    hour := r.datetime.hour
    season_name := season_map r.season
    day_name := dow_map r.datetime.dayofweek
    day_period := get_day_period r.datetime.hour }

/-- Embeds `load_data`, applied to an already-parsed CSV: every row gets the
derived columns (the column-wise assignments of `src/app.py` lines 32–53
act row-wise and independently). -/
def load_data (raw : List RawRow) : List Row0 :=
  raw.map annotateRow

/-- A row of the table the dashboard operates on: the annotated table plus
the `total` column added at `src/app.py` line 57. -/
structure Row extends Row0 where
  total : Int
deriving DecidableEq, Repr

/-- Embeds `df["total"] = df["count"]` (`src/app.py` line 57). -/
def addTotal (r : Row0) : Row :=
  { r with total := r.count }

/-- The three-valued sidebar radio `workingday_filter`
(`src/app.py` lines 75–79). -/
inductive WorkingdayFilter where
  | all
  | workingDays
  | nonWorkingDays
deriving DecidableEq, Repr

/-- Membership test of an optional season name in the selected-season
list: pandas `Series.isin` on a string column is false on a missing
value when the selection holds only real season names. -/
def optMem (o : Option String) (sel : List String) : Bool :=
  match o with
  | some s => sel.contains s
  | none => false

/-- The Filter Engine (`src/app.py` lines 81–87): successive boolean-mask
filters for year membership, season-name membership, and — unless the
radio is "All" — the working-day flag. -/
def filterRows (df : List Row) (selYears : List Int) (selSeasons : List String)
    (wf : WorkingdayFilter) : List Row :=
  let f1 := df.filter (fun r => selYears.contains r.year)
  let f2 := f1.filter (fun r => optMem r.season_name selSeasons)
  match wf with
  | .all => f2
  | .workingDays => f2.filter (fun r => r.workingday == 1)
  | .nonWorkingDays => f2.filter (fun r => r.workingday == 0)

/-- The row predicate the Filter Engine realises: year selected, season
name selected, and the working-day flag compatible with the radio mode. -/
def rowPasses (selYears : List Int) (selSeasons : List String)
    (wf : WorkingdayFilter) (r : Row) : Bool :=
  selYears.contains r.year && optMem r.season_name selSeasons &&
    (match wf with
     | .all => true
     | .workingDays => r.workingday == 1
     | .nonWorkingDays => r.workingday == 0)

/-- The successive masks of `filterRows` coincide with one filter by the
conjunction `rowPasses`. -/
theorem filterRows_eq_filter (df : List Row) (ys : List Int) (ss : List String)
    (wf : WorkingdayFilter) :
    filterRows df ys ss wf = df.filter (rowPasses ys ss wf) := by
  cases wf <;>
    simp only [filterRows, rowPasses, List.filter_filter] <;>
    · congr 1
      funext r
      cases selYear : ys.contains r.year <;>
        cases selSeason : optMem r.season_name ss <;>
          simp only [rowPasses, selYear, selSeason, Bool.false_and, Bool.true_and,
            Bool.and_true, Bool.and_false]

/-- Embeds `year_options = sorted(df["year"].unique())` (`src/app.py` line 65). -/
def year_options (df : List Row) : List Int :=
  List.insertionSort (fun a b => a ≤ b) ((df.map (fun r => r.year)).dedup)

/-- Embeds `season_options = df["season_name"].unique().tolist()`
(`src/app.py` line 70); missing values cannot arise when every season code
is in 1–4, so they are dropped. -/
def season_options (df : List Row) : List String :=
  (df.filterMap (fun r => r.season_name)).dedup

/-- Embeds `int(filtered["count"].sum())` (`src/app.py` line 99). -/
def sum_count (rows : List Row) : Int :=
  (rows.map (fun r => r.count)).sum

/-- Embeds `int(filtered["registered"].sum())` (`src/app.py` line 103). -/
def sum_registered (rows : List Row) : Int :=
  (rows.map (fun r => r.registered)).sum

/-- Embeds `int(filtered["casual"].sum())` (`src/app.py` line 105). -/
def sum_casual (rows : List Row) : Int :=
  (rows.map (fun r => r.casual)).sum

/-- Embeds `filtered["count"].mean()` (`src/app.py` line 101): the pandas mean of
an empty column is NaN, embedded as `none`. -/
def mean_count (rows : List Row) : Option ℚ :=
  match rows with
  | [] => none
  | _ => some (((rows.map (fun r => r.count)).sum : ℚ) / rows.length)

/-- A concrete raw row: 2011-02-05 03:00, spring, non-working day
(the §8 example row of the spec with hour 3). -/
def rawA : RawRow :=
  { datetime := ⟨2011, 2, 5, 3, 5⟩, season := 1, holiday := 0, workingday := 0,
    weather := 1, temp := 9, atemp := 10, humidity := 80, windspeed := 0,
    casual := 3, registered := 13, count := 16 }

/-- A concrete raw row: 2012-01-02 14:00, spring, working day
(the §8 example row of the spec with hour 14, moved to a working day in 2012). -/
def rawB : RawRow :=
  { datetime := ⟨2012, 1, 2, 14, 0⟩, season := 1, holiday := 0, workingday := 1,
    weather := 2, temp := 12, atemp := 13, humidity := 50, windspeed := 6,
    casual := 10, registered := 20, count := 30 }

/-- A concrete two-row dashboard table: loader output plus the `total`
column, as the script builds it. -/
def dfAB : List Row :=
  (load_data [rawA, rawB]).map addTotal

/-- C1: the Filter Engine returns exactly the rows whose year is selected,
whose season name is selected, and whose working-day flag matches the
mode (vacuously for mode All), as one order-preserving subsequence of the
input: no row is duplicated or reordered. -/
theorem c1_filter_engine_exact (df : List Row) (ys : List Int) (ss : List String)
    (wf : WorkingdayFilter) :
    filterRows df ys ss wf = df.filter (rowPasses ys ss wf) ∧
      (filterRows df ys ss wf).Sublist df := by
  refine ⟨filterRows_eq_filter df ys ss wf, ?_⟩
  rw [filterRows_eq_filter]
  exact List.filter_sublist df

/-- C2: filtering with the full year set, the full season set and mode All
returns the table unchanged, provided every row carries a real season name
(season code in 1–4, the data-model invariant). -/
theorem c2_full_selection_identity (df : List Row)
    (h : ∀ r ∈ df, (r.season_name).isSome) :
    filterRows df (year_options df) (season_options df) .all = df := by
  rw [filterRows_eq_filter]
  refine List.filter_eq_self.mpr ?_
  intro r hr
  have hy : r.year ∈ df.map (fun r => r.year) := List.mem_map_of_mem _ hr
  have hy2 : r.year ∈ year_options df := by
    unfold year_options
    rw [List.mem_insertionSort, List.mem_dedup]
    exact hy
  obtain ⟨s, hs⟩ := Option.isSome_iff_exists.mp (h r hr)
  have hsmem : s ∈ season_options df := by
    unfold season_options
    rw [List.mem_dedup, List.mem_filterMap]
    exact ⟨r, hr, hs⟩
  simp [rowPasses, hs, optMem, hy2, hsmem]

/-- C3: the Filter Engine is idempotent: re-filtering a filtered view with
the same year set, season set and working-day mode changes nothing. -/
theorem c3_filter_idempotent (df : List Row) (ys : List Int) (ss : List String)
    (wf : WorkingdayFilter) :
    filterRows (filterRows df ys ss wf) ys ss wf = filterRows df ys ss wf := by
  rw [filterRows_eq_filter, filterRows_eq_filter df, List.filter_filter]
  congr 1
  funext r
  exact Bool.and_self _

/-- C4: an empty selected-year set or an empty selected-season set yields
an empty filtered view, on which the KPI sums are 0 and the KPI mean is
undefined (`none`, the NaN of the pandas mean), not zero. -/
theorem c4_empty_selection (df : List Row) (ys : List Int) (ss : List String)
    (wf : WorkingdayFilter) (h : ys = [] ∨ ss = []) :
    filterRows df ys ss wf = [] ∧
      sum_count (filterRows df ys ss wf) = 0 ∧
      sum_registered (filterRows df ys ss wf) = 0 ∧
      sum_casual (filterRows df ys ss wf) = 0 ∧
      mean_count (filterRows df ys ss wf) = none := by
  have hnil : filterRows df ys ss wf = [] := by
    rw [filterRows_eq_filter]
    refine List.filter_eq_nil_iff.mpr ?_
    intro r hr
    rcases h with h | h <;> subst h
    · simp [rowPasses]
    · simp [rowPasses, optMem]
      cases r.season_name <;> simp
  rw [hnil]
  exact ⟨rfl, rfl, rfl, rfl, rfl⟩

/-- Witness for C4 at the concrete two-row table with no season selected. -/
theorem c4_empty_selection_witness :
    filterRows dfAB [(2011 : Int), 2012] [] .all = [] ∧
      sum_count (filterRows dfAB [(2011 : Int), 2012] [] .all) = 0 ∧
      sum_registered (filterRows dfAB [(2011 : Int), 2012] [] .all) = 0 ∧
      sum_casual (filterRows dfAB [(2011 : Int), 2012] [] .all) = 0 ∧
      mean_count (filterRows dfAB [(2011 : Int), 2012] [] .all) = none :=
  c4_empty_selection dfAB [(2011 : Int), 2012] [] .all (Or.inr rfl)

/-- Witness for C2 at the concrete two-row table. -/
theorem c2_full_selection_identity_witness :
    filterRows dfAB (year_options dfAB) (season_options dfAB) .all = dfAB :=
  c2_full_selection_identity dfAB (by decide)

/-- On hours 0–23 the four `get_day_period` buckets are exactly the
intervals night [0,6), morning [6,12), afternoon [12,18), evening
[18,24). -/
theorem get_day_period_buckets (h : Int) (h0 : 0 ≤ h) (h24 : h < 24) :
    (get_day_period h = "night" ↔ 0 ≤ h ∧ h < 6) ∧
      (get_day_period h = "morning" ↔ 6 ≤ h ∧ h < 12) ∧
      (get_day_period h = "afternoon" ↔ 12 ≤ h ∧ h < 18) ∧
      (get_day_period h = "evening" ↔ 18 ≤ h ∧ h < 24) := by
  unfold get_day_period
  split_ifs with h1 h2 h3 <;>
    refine ⟨⟨fun hs => ?_, fun hh => ?_⟩, ⟨fun hs => ?_, fun hh => ?_⟩,
      ⟨fun hs => ?_, fun hh => ?_⟩, ⟨fun hs => ?_, fun hh => ?_⟩⟩ <;>
    first
      | rfl
      | omega
      | exact absurd hs (by decide)

/-- C5: on the loaded table, `day_period` is the pure function
`get_day_period` of the hour of the row, takes one of the four period names,
and (for hours 0–23) realises exactly the buckets night [0,6),
morning [6,12), afternoon [12,18), evening [18,24), which partition the
day. -/
theorem c5_day_period_partition (raw : List RawRow) (r : Row0)
    (hr : r ∈ load_data raw) (h0 : 0 ≤ r.hour) (h24 : r.hour < 24) :
    r.day_period = get_day_period r.hour ∧
      (r.day_period = "night" ∨ r.day_period = "morning" ∨
        r.day_period = "afternoon" ∨ r.day_period = "evening") ∧
      (r.day_period = "night" ↔ 0 ≤ r.hour ∧ r.hour < 6) ∧
      (r.day_period = "morning" ↔ 6 ≤ r.hour ∧ r.hour < 12) ∧
      (r.day_period = "afternoon" ↔ 12 ≤ r.hour ∧ r.hour < 18) ∧
      (r.day_period = "evening" ↔ 18 ≤ r.hour ∧ r.hour < 24) := by
  obtain ⟨x, _, rfl⟩ := List.mem_map.mp hr
  have hfun : (annotateRow x).day_period = get_day_period (annotateRow x).hour := rfl
  obtain ⟨b1, b2, b3, b4⟩ := get_day_period_buckets (annotateRow x).hour h0 h24
  rw [hfun]
  refine ⟨rfl, ?_, b1, b2, b3, b4⟩
  rcases lt_or_le (annotateRow x).hour 6 with hc | hc
  · exact Or.inl (b1.mpr ⟨h0, hc⟩)
  rcases lt_or_le (annotateRow x).hour 12 with hc2 | hc2
  · exact Or.inr (Or.inl (b2.mpr ⟨hc, hc2⟩))
  rcases lt_or_le (annotateRow x).hour 18 with hc3 | hc3
  · exact Or.inr (Or.inr (Or.inl (b3.mpr ⟨hc2, hc3⟩)))
  · exact Or.inr (Or.inr (Or.inr (b4.mpr ⟨hc3, h24⟩)))

/-- Witness for C5 at the concrete row with hour 3 (a night hour). -/
theorem c5_day_period_partition_witness :
    (annotateRow rawA).day_period = get_day_period (annotateRow rawA).hour ∧
      ((annotateRow rawA).day_period = "night" ∨
        (annotateRow rawA).day_period = "morning" ∨
        (annotateRow rawA).day_period = "afternoon" ∨
        (annotateRow rawA).day_period = "evening") ∧
      ((annotateRow rawA).day_period = "night" ↔
        0 ≤ (annotateRow rawA).hour ∧ (annotateRow rawA).hour < 6) ∧
      ((annotateRow rawA).day_period = "morning" ↔
        6 ≤ (annotateRow rawA).hour ∧ (annotateRow rawA).hour < 12) ∧
      ((annotateRow rawA).day_period = "afternoon" ↔
        12 ≤ (annotateRow rawA).hour ∧ (annotateRow rawA).hour < 18) ∧
      ((annotateRow rawA).day_period = "evening" ↔
        18 ≤ (annotateRow rawA).hour ∧ (annotateRow rawA).hour < 24) :=
  c5_day_period_partition [rawA] (annotateRow rawA) (by decide) (by decide) (by decide)

/-- The monthly-trend metric selector `metric_choice`
(`src/app.py` lines 112–116). -/
inductive Metric where
  | count
  | casual
  | registered
deriving DecidableEq, Repr

/-- The column the selected metric reads. -/
def metricVal : Metric → Row → Int
  | .count => fun r => r.count
  | .casual => fun r => r.casual
  | .registered => fun r => r.registered

/-- Lexicographic order on group keys in the key order of
`groupby(["year", "month"])`: year first, then month — the ascending order
pandas sorts group keys into. -/
def groupKeyLe (a b : Int × Int) : Prop :=
  a.1 < b.1 ∨ (a.1 = b.1 ∧ a.2 ≤ b.2)

instance : DecidableRel groupKeyLe := fun a b => by
  unfold groupKeyLe
  infer_instance

instance : IsTotal (Int × Int) groupKeyLe :=
  ⟨by
    intro a b
    unfold groupKeyLe
    omega⟩

instance : IsTrans (Int × Int) groupKeyLe :=
  ⟨by
    intro a b c
    unfold groupKeyLe
    omega⟩

/-- The (year, month) group keys of `filtered.groupby(["year", "month"])`:
the distinct key pairs present, in the sorted order pandas emits. -/
def monthlyKeys (rows : List Row) : List (Int × Int) :=
  List.insertionSort groupKeyLe ((rows.map (fun r => (r.year, r.month))).dedup)

/-- Mean of an integer column, as the pandas group mean (groups are
non-empty, so the denominator is positive wherever this is used). -/
def meanInt (l : List Int) : ℚ :=
  ((l.sum : Int) : ℚ) / l.length

/-- Embeds `monthly = filtered.groupby(["year", "month"], as_index=False)[metric_choice].mean()`
(`src/app.py` lines 118–120): one row per (year, month) key present, in
the sorted key order of pandas, carrying the group mean of the chosen metric. -/
def monthly (rows : List Row) (m : Metric) : List (Int × Int × ℚ) :=
  (monthlyKeys rows).map (fun k =>
    (k.1, k.2,
      meanInt ((rows.filter (fun r => r.year == k.1 && r.month == k.2)).map (metricVal m))))

/-- The order the claim asserts for the monthly output: month first,
then year. -/
def monthThenYearLe (a b : Int × Int) : Prop :=
  a.2 < b.2 ∨ (a.2 = b.2 ∧ a.1 ≤ b.1)

instance : DecidableRel monthThenYearLe := fun a b => by
  unfold monthThenYearLe
  infer_instance

/-- The key part of each monthly output row is exactly `monthlyKeys`. -/
theorem monthly_keysPart (rows : List Row) (m : Metric) :
    (monthly rows m).map (fun e => (e.1, e.2.1)) = monthlyKeys rows := by
  unfold monthly
  generalize monthlyKeys rows = ks
  induction ks with
  | nil => rfl
  | cons k t ih => simp [ih]

/-- C6 counterexample: on the concrete two-row table with keys
(2011, 2) and (2012, 1), the monthly output is NOT ordered by month then
year (pandas sorts by year then month). -/
theorem c6_monthly_trend_counterexample :
    ¬ List.Sorted monthThenYearLe ((monthly dfAB .count).map (fun e => (e.1, e.2.1))) := by
  decide

/-- C6 (amended: output sorted by year then month, the group-key
order of pandas): the monthly-trend aggregation emits exactly one row per
(year, month) pair present in the filtered view, carrying the mean of the
chosen metric over the rows of that pair, ordered by year then month. -/
theorem c6_monthly_trend (rows : List Row) (m : Metric) :
    ((monthly rows m).map (fun e => (e.1, e.2.1))).Nodup ∧
      (∀ y mo : Int, ((y, mo) ∈ (monthly rows m).map (fun e => (e.1, e.2.1))) ↔
        ∃ r ∈ rows, r.year = y ∧ r.month = mo) ∧
      (∀ e ∈ monthly rows m,
        e.2.2 = meanInt ((rows.filter
          (fun r => r.year == e.1 && r.month == e.2.1)).map (metricVal m))) ∧
      List.Sorted groupKeyLe ((monthly rows m).map (fun e => (e.1, e.2.1))) := by
  rw [monthly_keysPart rows m]
  refine ⟨?_, ?_, ?_, ?_⟩
  · exact ((List.perm_insertionSort groupKeyLe _).symm).nodup (List.nodup_dedup _)
  · intro y mo
    unfold monthlyKeys
    rw [List.mem_insertionSort, List.mem_dedup, List.mem_map]
    constructor
    · rintro ⟨r, hr, he⟩
      cases he
      exact ⟨r, hr, rfl, rfl⟩
    · rintro ⟨r, hr, hy, hmo⟩
      exact ⟨r, hr, by rw [hy, hmo]⟩
  · intro e he
    obtain ⟨k, _, rfl⟩ := List.mem_map.mp he
    rfl
  · exact List.sorted_insertionSort groupKeyLe _

/-- Witness for C6 at the concrete two-row table: the key (2011, 2) is in
the output because the first row has that year and month. -/
theorem c6_monthly_trend_witness :
    ((2011 : Int), (2 : Int)) ∈ (monthly dfAB .count).map (fun e => (e.1, e.2.1)) :=
  ((c6_monthly_trend dfAB .count).2.1 2011 2).mpr
    ⟨addTotal (annotateRow rawA), by decide, by decide, by decide⟩

/-- The 64-bit linear congruential step used to model the pseudo-random
number stream of the seeded sampler. -/
def lcg (s : Nat) : Nat :=
  (6364136223846793005 * s + 1442695040888963407) % (2 ^ 64)

/-- Modelled third-party behavior: `DataFrame.sample(n, random_state=k)`
(`src/app.py` line 166) draws a size-n pseudo-random subset without
replacement, a pure function of the seed and the frame; embedded as a
seeded selection-without-replacement (repeatedly pick the index given by
the pseudo-random stream and remove that row). -/
def sampleTake (seed : Nat) : Nat → List Row → List Row
  | 0, _ => []
  | _ + 1, [] => []
  | k + 1, p :: ps =>
      let i := seed % (ps.length + 1)
      (p :: ps).get ⟨i, Nat.mod_lt _ (Nat.succ_pos _)⟩ ::
        sampleTake (lcg seed) k ((p :: ps).eraseIdx i)

/-- Embeds `filtered.sample(min(len(filtered), 5000), random_state=0)`
(`src/app.py` line 166). -/
def sample_scatter (rows : List Row) : List Row :=
  sampleTake 0 (min rows.length 5000) rows

/-- The seeded selection always returns exactly `min k n` rows. -/
theorem sampleTake_length (k : Nat) :
    ∀ (seed : Nat) (pool : List Row),
      (sampleTake seed k pool).length = min k pool.length := by
  induction k with
  | zero =>
    intro seed pool
    simp [sampleTake]
  | succ k ih =>
    intro seed pool
    cases pool with
    | nil => simp [sampleTake]
    | cons p ps =>
      have hi : seed % (ps.length + 1) < ps.length + 1 :=
        Nat.mod_lt _ (Nat.succ_pos _)
      simp only [sampleTake, List.length_cons, ih, List.length_eraseIdx]
      rw [if_pos hi]
      omega

/-- C7: the scatter sample has exactly min(5000, number of filtered rows)
rows, and sampling is deterministic: with the seed fixed at 0 in the
source, equal filtered views yield identical samples. -/
theorem c7_scatter_sample (rows : List Row) :
    (sample_scatter rows).length = min 5000 rows.length ∧
      ∀ rows2 : List Row, rows = rows2 → sample_scatter rows = sample_scatter rows2 := by
  constructor
  · unfold sample_scatter
    rw [sampleTake_length]
    omega
  · intro rows2 h
    rw [h]

/-- Witness for C7 at the concrete two-row table. -/
theorem c7_scatter_sample_witness :
    (sample_scatter dfAB).length = min 5000 dfAB.length ∧
      sample_scatter dfAB = sample_scatter dfAB :=
  ⟨(c7_scatter_sample dfAB).1, (c7_scatter_sample dfAB).2 dfAB rfl⟩

/-- The seven numeric columns of `numeric_cols` (`src/app.py` line 58). -/
inductive NumCol where
  | temp
  | atemp
  | humidity
  | windspeed
  | casual
  | registered
  | count
deriving DecidableEq, Repr

/-- Embeds `numeric_cols = ["temp", "atemp", "humidity", "windspeed", "casual", "registered", "count"]`
(`src/app.py` line 58). -/
def numeric_cols : List NumCol :=
  [.temp, .atemp, .humidity, .windspeed, .casual, .registered, .count]

/-- The value a numeric column takes on a row. -/
def colVal : NumCol → Row → ℚ
  | .temp => fun r => r.temp
  | .atemp => fun r => r.atemp
  | .humidity => fun r => r.humidity
  | .windspeed => fun r => r.windspeed
  | .casual => fun r => (r.casual : ℚ)
  | .registered => fun r => (r.registered : ℚ)
  | .count => fun r => (r.count : ℚ)

/-- One column of the filtered view, as the list of its values. -/
def colList (rows : List Row) (c : NumCol) : List ℚ :=
  rows.map (colVal c)

/-- Mean of a rational column. -/
def meanQ (l : List ℚ) : ℚ :=
  l.sum / l.length

/-- Centered cross-product sum Σ (xᵢ − x̄)(yᵢ − ȳ): the shared numerator
and denominator core of the Pearson coefficient (the 1/(n−1) covariance
normalisation cancels in the ratio). -/
def sxy (xs ys : List ℚ) : ℚ :=
  (List.zipWith (fun a b => (a - meanQ xs) * (b - meanQ ys)) xs ys).sum

/-- Pearson correlation coefficient of two columns,
r = Σ(x−x̄)(y−ȳ) / √(Σ(x−x̄)² · Σ(y−ȳ)²), the quantity
`DataFrame.corr` computes pairwise (`src/app.py` line 205); real-valued
because of the square root. -/
noncomputable def pearson (xs ys : List ℚ) : ℝ :=
  ((sxy xs ys : ℚ) : ℝ) / Real.sqrt (((sxy xs xs : ℚ) : ℝ) * ((sxy ys ys : ℚ) : ℝ))

/-- Entry (c1, c2) of `corr = filtered[numeric_cols].corr()`
(`src/app.py` line 205). -/
noncomputable def corr (rows : List Row) (c1 c2 : NumCol) : ℝ :=
  pearson (colList rows c1) (colList rows c2)

/-- Commuting the two centered columns leaves the cross-product sum
unchanged. -/
theorem zipWith_centered_comm (xs : List ℚ) :
    ∀ (ys : List ℚ) (m1 m2 : ℚ),
      (List.zipWith (fun a b => (a - m1) * (b - m2)) xs ys).sum =
        (List.zipWith (fun a b => (a - m2) * (b - m1)) ys xs).sum := by
  induction xs with
  | nil =>
    intro ys m1 m2
    cases ys <;> simp
  | cons x xs ih =>
    intro ys m1 m2
    cases ys with
    | nil => simp
    | cons y ys =>
      simp only [List.zipWith_cons_cons, List.sum_cons, ih ys m1 m2]
      ring

/-- The centered cross-product sum is symmetric. -/
theorem sxy_comm (xs ys : List ℚ) : sxy xs ys = sxy ys xs := by
  unfold sxy
  exact zipWith_centered_comm xs ys (meanQ xs) (meanQ ys)

/-- Zipping a column with itself squares each centered entry. -/
theorem zipWith_self_sq (m : ℚ) :
    ∀ xs : List ℚ,
      List.zipWith (fun a b => (a - m) * (b - m)) xs xs =
        xs.map (fun a => (a - m) * (a - m))
  | [] => rfl
  | x :: xs => by simp [zipWith_self_sq m xs]

/-- The centered sum of squares is nonnegative. -/
theorem sxy_self_nonneg (xs : List ℚ) : 0 ≤ sxy xs xs := by
  unfold sxy
  rw [zipWith_self_sq]
  apply List.sum_nonneg
  intro q hq
  obtain ⟨a, _, rfl⟩ := List.mem_map.mp hq
  exact mul_self_nonneg _

/-- C8: on a non-empty filtered view where none of the seven numeric
columns has zero variance (zero centered sum of squares), the pairwise
Pearson correlation matrix over those columns is symmetric and every
diagonal entry is 1. -/
theorem c8_correlation_matrix (rows : List Row) (_h1 : rows ≠ [])
    (h2 : ∀ c ∈ numeric_cols, sxy (colList rows c) (colList rows c) ≠ 0) :
    ∀ c1 ∈ numeric_cols, ∀ c2 ∈ numeric_cols,
      corr rows c1 c2 = corr rows c2 c1 ∧ corr rows c1 c1 = 1 := by
  intro c1 hc1 c2 hc2
  constructor
  · unfold corr pearson
    rw [sxy_comm (colList rows c1) (colList rows c2),
      mul_comm ((sxy (colList rows c1) (colList rows c1) : ℚ) : ℝ)
        ((sxy (colList rows c2) (colList rows c2) : ℚ) : ℝ)]
  · unfold corr pearson
    have hnn : (0 : ℚ) ≤ sxy (colList rows c1) (colList rows c1) := sxy_self_nonneg _
    have hne : sxy (colList rows c1) (colList rows c1) ≠ 0 := h2 c1 hc1
    have hnnR : (0 : ℝ) ≤ ((sxy (colList rows c1) (colList rows c1) : ℚ) : ℝ) := by
      exact_mod_cast hnn
    have hneR : ((sxy (colList rows c1) (colList rows c1) : ℚ) : ℝ) ≠ 0 := by
      exact_mod_cast hne
    rw [Real.sqrt_mul_self hnnR]
    exact div_self hneR

/-- Witness for C8 at the concrete two-row table, whose seven numeric
columns all take two distinct values. -/
theorem c8_correlation_matrix_witness :
    corr dfAB .temp .atemp = corr dfAB .atemp .temp ∧ corr dfAB .temp .temp = 1 :=
  c8_correlation_matrix dfAB (by decide)
    (by
      intro c _
      cases c <;>
        norm_num [sxy, colList, colVal, meanQ, dfAB, load_data, annotateRow,
          addTotal, rawA, rawB])
    .temp (by decide) .atemp (by decide)

/-- The load-failure taxonomy the spec names `DataLoadError` (spec §7):
file missing, file unreadable/malformed, or required columns absent. -/
inductive DataLoadError where
  | fileMissing
  | malformed
  | missingColumns
deriving DecidableEq, Repr

/-- Modelled from the spec: the dataset file as `pd.read_csv("train.csv")`
sees it — absent, unparseable, or a parsed table carrying its column-name
list; file-system access and CSV parsing are library and runtime behavior
with no code under `src/`. -/
inductive CsvFile where
  | missing
  | malformed
  | table (columns : List String) (rows : List RawRow)

/-- The columns the dashboard requires of the input file (spec §6). -/
def requiredColumns : List String :=
  ["datetime", "season", "workingday", "temp", "atemp", "humidity",
   "windspeed", "casual", "registered", "count"]

/-- Modelled from the spec: `load_data` including its fallible read —
`pd.read_csv` raising on a missing or unparseable file, and column access
raising on a schema mismatch, surface as the `DataLoadError` of the spec; on a
good table the loader annotates every row (`src/app.py` lines 28–54). -/
def load_data_checked : CsvFile → Except DataLoadError (List Row0)
  | .missing => .error .fileMissing
  | .malformed => .error .malformed
  | .table cols rows =>
      if requiredColumns.all (fun c => cols.contains c) then .ok (load_data rows)
      else .error .missingColumns

/-- The rendered dashboard contents downstream of the loader: the four
KPIs (`src/app.py` lines 98–105), the monthly trend (lines 118–120) and
the bounded raw preview `filtered.head(200)` (line 216). -/
structure Dashboard where
  totalRentals : Int
  meanHourly : Option ℚ
  registeredRentals : Int
  casualRentals : Int
  monthlyTrend : List (Int × Int × ℚ)
  preview : List Row
deriving Repr

/-- One render cycle: load, add the `total` column, filter with the user
selectors, aggregate.  A loader failure aborts the cycle with the error
and produces no dashboard value at all. -/
def renderDashboard (file : CsvFile) (ys : List Int) (ss : List String)
    (wf : WorkingdayFilter) (m : Metric) : Except DataLoadError Dashboard :=
  match load_data_checked file with
  | .error e => .error e
  | .ok rows0 =>
      let df := rows0.map addTotal
      let filtered := filterRows df ys ss wf
      .ok
        { totalRentals := sum_count filtered
          meanHourly := mean_count filtered
          registeredRentals := sum_registered filtered
          casualRentals := sum_casual filtered
          monthlyTrend := monthly filtered m
          preview := filtered.take 200 }

/-- C9: a missing file, a malformed file, or a table lacking a required
column makes the loader fail with the corresponding `DataLoadError`, and
the failure is fatal to the render cycle: the result of the cycle is exactly
that error and no (partial) dashboard is produced. -/
theorem c9_load_error_aborts (ys : List Int) (ss : List String)
    (wf : WorkingdayFilter) (m : Metric) :
    renderDashboard .missing ys ss wf m = .error .fileMissing ∧
      renderDashboard .malformed ys ss wf m = .error .malformed ∧
      ∀ (cols : List String) (rows : List RawRow),
        requiredColumns.all (fun c => cols.contains c) = false →
          renderDashboard (.table cols rows) ys ss wf m = .error .missingColumns := by
  refine ⟨rfl, rfl, ?_⟩
  intro cols rows h
  simp only [renderDashboard, load_data_checked, h, Bool.false_eq_true, if_false]

/-- Witness for C9: a parsed table with no columns at all fails the
render cycle with the schema-mismatch error. -/
theorem c9_load_error_aborts_witness :
    renderDashboard (.table [] []) [] [] .all .count = .error .missingColumns :=
  (c9_load_error_aborts [] [] .all .count).2.2 [] [] rfl

/-- C10: the table handed to the Filter Engine carries the extra `total`
column equal row-by-row to `count`, and since no later operation writes
it, every row of every filtered view satisfies total = count. -/
theorem c10_total_eq_count (raw : List RawRow) (ys : List Int) (ss : List String)
    (wf : WorkingdayFilter) (r : Row)
    (hr : r ∈ filterRows ((load_data raw).map addTotal) ys ss wf) :
    r.total = r.count := by
  rw [filterRows_eq_filter] at hr
  have hmem : r ∈ (load_data raw).map addTotal := List.mem_of_mem_filter hr
  obtain ⟨r0, _, rfl⟩ := List.mem_map.mp hmem
  rfl

/-- Witness for C10 at the concrete two-row table filtered to 2011 and
spring. -/
theorem c10_total_eq_count_witness :
    addTotal (annotateRow rawA) ∈
        filterRows ((load_data [rawA, rawB]).map addTotal) [(2011 : Int)] ["spring"] .all ∧
      (addTotal (annotateRow rawA)).total = (addTotal (annotateRow rawA)).count :=
  ⟨by decide,
    c10_total_eq_count [rawA, rawB] [(2011 : Int)] ["spring"] .all _ (by decide)⟩
